import Mathlib

/-!
Verification of the order/cart/template state manager in
`assets/js/app-optimized.js` (class `CartManager`).

The JavaScript state is embedded shallowly:

* the `orders` object (string-keyed mapping of order id to item array) is an
  association list with unique keys, since a JS object cannot hold two entries
  with the same key; assignment updates the entry in place or appends a new
  key at the end, and `delete` removes the entry, exactly as `setKey` and
  `delKey` below;
* JS numbers used as prices become `Rat`, quantities become `Int`;
* `parseInt` applied to the caller's quantity argument is modelled by
  `Option Int`: `none` stands for a `NaN` result (absent or non-numeric
  input), `some n` for a successful integer coercion;
* ids generated from `Date.now()` / `Math.random()` are passed in as explicit
  `genId` / `now` arguments (an oracle for the nondeterministic generator);
* `showNotification(message, type)` appends the pair to a notification log
  carried in the state; DOM rendering and `localStorage` write-through have
  no further observable effect on the manager's state and are dropped.

Item objects are mutated in place by the source only through their `quantity`
field (`existingItem.quantity += q` in `addItem`, and
`this.cart[index].quantity = n` in `updateQuantity`); all other operations
replace whole arrays.  The value-semantics model below is therefore
observationally faithful for every observation made through the order store.
A second, heap-indexed model (`HState`, further down) makes the object
sharing between orders and saved templates explicit, which is needed to
settle the template-snapshot independence claim.
-/

/-- An item row as stored in an order: `{ id, name, price, quantity }`. -/
structure Item where
  id : String
  name : String
  price : Rat
  quantity : Int
  deriving Repr, DecidableEq

/-- The caller-supplied descriptor passed to `addItem`.  `quantity = none`
models an absent or non-numeric quantity (so `parseInt` yields `NaN`);
`id = none` models an absent id. -/
structure ItemInput where
  name : String
  price : Rat
  quantity : Option Int
  id : Option String
  deriving Repr, DecidableEq

/-- A saved order template:
`{ id, name, items, createdAt, total, itemCount, updatedAt? }`. -/
structure Template where
  id : String
  name : String
  items : List Item
  createdAt : String
  total : Rat
  itemCount : Int
  updatedAt : Option String
  deriving Repr, DecidableEq

/-- The `CartManager` state: active order pointer, the `orders` mapping,
the template list, and the log of notifications shown so far
(message, severity). -/
structure State where
  activeOrderId : String
  orders : List (String × List Item)
  orderTemplates : List Template
  notifications : List (String × String)
  deriving Repr, DecidableEq

/-- Key lookup in a JS object modelled as an association list. -/
def lookupKey (l : List (String × α)) (k : String) : Option α :=
  match l with
  | [] => none
  | e :: rest => if e.1 = k then some e.2 else lookupKey rest k

/-- Key assignment in a JS object: update the entry in place if the key is
present, append a fresh entry at the end otherwise. -/
def setKey (l : List (String × α)) (k : String) (v : α) : List (String × α) :=
  match l with
  | [] => [(k, v)]
  | e :: rest => if e.1 = k then (k, v) :: rest else e :: setKey rest k v

/-- The JS `delete` operator: remove the entry with the given key. -/
def delKey (l : List (String × α)) (k : String) : List (String × α) :=
  match l with
  | [] => []
  | e :: rest => if e.1 = k then rest else e :: delKey rest k

/-- JS `String.prototype.trim`: strip whitespace from both ends. -/
def jsTrim (s : String) : String :=
  ⟨((s.data.dropWhile Char.isWhitespace).reverse.dropWhile Char.isWhitespace).reverse⟩

/-- `sanitizeInput`: setting `textContent` on a fresh element and reading back
`innerHTML` HTML-escapes the text, turning the markup-significant characters
into entity references. -/
def sanitizeInput (s : String) : String :=
  ⟨(s.data.map fun c =>
      if c = '&' then "&amp;".data
      else if c = '<' then "&lt;".data
      else if c = '>' then "&gt;".data
      else [c]).flatten⟩

/-- `parseInt(item.quantity) || 1` from `addItem`: `NaN` (modelled `none`)
and `0` are falsy and fall back to `1`; every other integer — negative ones
included — is kept. -/
def qtyCoerce : Option Int → Int
  | none => 1
  | some n => if n = 0 then 1 else n

/-- `item.id || this.generateItemId(item.name)`: the caller's id is used
unless it is absent or the empty string, in which case the generated id
(the `genId` oracle) is taken. -/
def resolveId (inp : ItemInput) (genId : String) : String :=
  match inp.id with
  | some i => if i = "" then genId else i
  | none => genId

/-- The duplicate test of `addItem`'s `find`: same name and same price. -/
def sameKey (nm : String) (pr : Rat) (i : Item) : Bool :=
  decide (i.name = nm ∧ i.price = pr)

/-- `existingItem.quantity += q` applied to the first item matching the
duplicate test, leaving everything else in place. -/
def addQtyFirst (nm : String) (pr : Rat) (q : Int) : List Item → List Item
  | [] => []
  | i :: rest =>
      if sameKey nm pr i then { i with quantity := i.quantity + q } :: rest
      else i :: addQtyFirst nm pr q rest

/-- `this.cart[index].quantity = n`: in-place quantity write at a position. -/
def setQtyAt : List Item → Nat → Int → List Item
  | [], _, _ => []
  | i :: rest, 0, q => { i with quantity := q } :: rest
  | i :: rest, n + 1, q => i :: setQtyAt rest n q

/-- `showNotification(msg, lvl)`: append to the notification log. -/
def notify (s : State) (msg lvl : String) : State :=
  { s with notifications := s.notifications ++ [(msg, lvl)] }

/-- The `cart` getter: `this.orders[this.activeOrderId] || []`. -/
def cartOf (s : State) : List Item :=
  (lookupKey s.orders s.activeOrderId).getD []

/-- The `cart` setter: `this.orders[this.activeOrderId] = items`. -/
def setCart (s : State) (items : List Item) : State :=
  { s with orders := setKey s.orders s.activeOrderId items }

/-- The state the constructor produces from empty storage: active order
`"default"`, and `initializeDefaultOrder` has created the empty default
order. -/
def initState : State :=
  { activeOrderId := "default"
    orders := [("default", [])]
    orderTemplates := []
    notifications := [] }

/-- `CartManager.addItem`.  Fails on a falsy `name` or `price` (the empty
string, respectively the number `0`).  Otherwise merges into the first item
with the same sanitized name and price, or appends a fresh row.  When the
active key is absent from `orders`, the `cart` getter hands out a temporary
empty array, so the pushed row is lost while the call still reports
success. -/
def addItem (s : State) (inp : ItemInput) (genId : String) : Bool × State :=
  if inp.name = "" ∨ inp.price = 0 then (false, s)
  else
    let nm := sanitizeInput inp.name
    let q := qtyCoerce inp.quantity
    match lookupKey s.orders s.activeOrderId with
    | none => (true, notify s (nm ++ " added to cart!") "success")
    | some items =>
        let items2 :=
          if items.any (sameKey nm inp.price) then addQtyFirst nm inp.price q items
          else items ++ [⟨resolveId inp genId, nm, inp.price, q⟩]
        (true, notify (setCart s items2) (nm ++ " added to cart!") "success")

/-- `CartManager.removeItem`: splice out the row at `index` when it is in
bounds, otherwise do nothing. -/
def removeItem (s : State) (index : Int) : State :=
  if 0 ≤ index ∧ index < ((cartOf s).length : Int) then
    match (cartOf s).get? index.toNat with
    | some it =>
        notify (setCart s ((cartOf s).eraseIdx index.toNat))
          (it.name ++ " removed from cart!") "info"
    | none => s
  else s

/-- `CartManager.updateQuantity`: in bounds, a positive coerced quantity is
written in place; `NaN`, zero or a negative value splices the row out. -/
def updateQuantity (s : State) (index : Int) (quantity : Option Int) : State :=
  if 0 ≤ index ∧ index < ((cartOf s).length : Int) then
    match quantity with
    | some n =>
        if 0 < n then setCart s (setQtyAt (cartOf s) index.toNat n)
        else setCart s ((cartOf s).eraseIdx index.toNat)
    | none => setCart s ((cartOf s).eraseIdx index.toNat)
  else s

/-- `reduce((total, item) => total + item.price * item.quantity, 0)`. -/
def totalOf (items : List Item) : Rat :=
  items.foldl (fun t i => t + i.price * (i.quantity : Rat)) 0

/-- `reduce((count, item) => count + item.quantity, 0)`. -/
def countOf (items : List Item) : Int :=
  items.foldl (fun c i => c + i.quantity) 0

/-- `CartManager.getTotal`. -/
def getTotal (s : State) : Rat := totalOf (cartOf s)

/-- `CartManager.getItemCount`. -/
def getItemCount (s : State) : Int := countOf (cartOf s)

/-- `CartManager.clearCart`: the `cart` setter with `[]`, then a
notification. -/
def clearCart (s : State) : State :=
  notify (setCart s []) "Cart cleared!" "info"

/-- `CartManager.switchToOrder`. -/
def switchToOrder (s : State) (orderId : String) : State :=
  if (lookupKey s.orders orderId).isSome then
    notify { s with activeOrderId := orderId }
      ("Switched to order: " ++ orderId) "info"
  else notify s ("Order not found: " ++ orderId) "error"

/-- `CartManager.createOrder`; `orderId` is the resolved id (the caller's
name, or the generated one when the name was omitted). -/
def createOrder (s : State) (orderId : String) : String × State :=
  if (lookupKey s.orders orderId).isSome then (orderId, s)
  else
    let s1 := { s with orders := setKey s.orders orderId [] }
    (orderId, notify (switchToOrder s1 orderId)
      ("Created new order: " ++ orderId) "success")

/-- `CartManager.deleteOrder`. -/
def deleteOrder (s : State) (orderId : String) : Bool × State :=
  if orderId = "default" then
    (false, notify s "Cannot delete default order" "error")
  else if (lookupKey s.orders orderId).isSome then
    let s1 := { s with orders := delKey s.orders orderId }
    let s2 := if s1.activeOrderId = orderId then switchToOrder s1 "default" else s1
    (true, notify s2 ("Deleted order: " ++ orderId) "info")
  else (false, s)

/-- `CartManager.getAllOrderIds`: `Object.keys(this.orders)`. -/
def getAllOrderIds (s : State) : List String := s.orders.map Prod.fst

/-- `CartManager.renameOrder`: succeeds only when the old key is present and
the new key absent; the item array moves to the new key (appended at the
end), the old key is deleted, and the active pointer follows. -/
def renameOrder (s : State) (oldId newId : String) : Bool × State :=
  match lookupKey s.orders oldId with
  | none => (false, s)
  | some items =>
      if (lookupKey s.orders newId).isSome then (false, s)
      else
        let s1 := { s with orders := delKey (setKey s.orders newId items) oldId }
        let s2 := if s1.activeOrderId = oldId then { s1 with activeOrderId := newId } else s1
        (true, notify s2 ("Renamed order to: " ++ newId) "success")

/-- `CartManager.saveAsTemplate`; `genId` and `now` stand for
`generateOrderId('template')` and `new Date().toISOString()`. -/
def saveAsTemplate (s : State) (templateName genId now : String) :
    Option String × State :=
  if jsTrim templateName = "" then
    (none, notify s "Please enter a template name" "error")
  else
    let nm := sanitizeInput (jsTrim templateName)
    if s.orderTemplates.any (fun t => decide (t.name = nm)) then
      (none, notify s "Template with this name already exists" "error")
    else
      let tmpl : Template :=
        ⟨genId, nm, cartOf s, now, getTotal s, getItemCount s, none⟩
      (some genId,
        notify { s with orderTemplates := s.orderTemplates ++ [tmpl] }
          ("Saved template: " ++ nm) "success")

/-- `CartManager.loadTemplate`: overwrite the target order (the active one
when no target is given) with a copy of the template's items. -/
def loadTemplate (s : State) (templateId : String) (targetOrderId : Option String) :
    Bool × State :=
  match s.orderTemplates.find? (fun t => decide (t.id = templateId)) with
  | none => (false, notify s "Template not found" "error")
  | some t =>
      let orderId := targetOrderId.getD s.activeOrderId
      (true, notify { s with orders := setKey s.orders orderId t.items }
        ("Loaded template: " ++ t.name) "success")

/-- The operations quantified over by the order-store invariant claim. -/
inductive Op where
  | createOrder (orderId : String)
  | switchToOrder (orderId : String)
  | deleteOrder (orderId : String)
  | renameOrder (oldId newId : String)
  | addItem (inp : ItemInput) (genId : String)
  | removeItem (index : Int)
  | updateQuantity (index : Int) (quantity : Option Int)
  | clearCart
  | loadTemplate (templateId : String) (target : Option String)
  deriving Repr, DecidableEq

/-- Run one operation, keeping the resulting state. -/
def applyOp (s : State) : Op → State
  | .createOrder i => (createOrder s i).2
  | .switchToOrder i => switchToOrder s i
  | .deleteOrder i => (deleteOrder s i).2
  | .renameOrder a b => (renameOrder s a b).2
  | .addItem inp g => (addItem s inp g).2
  | .removeItem i => removeItem s i
  | .updateQuantity i q => updateQuantity s i q
  | .clearCart => clearCart s
  | .loadTemplate t tgt => (loadTemplate s t tgt).2

/-- The order exists in the `orders` mapping. -/
def hasOrderB (s : State) (k : String) : Bool :=
  (lookupKey s.orders k).isSome

/-- The order-store invariant claimed by the spec: the `"default"` order is
present and the active pointer refers to an existing order. -/
def Invariant (s : State) : Prop :=
  hasOrderB s "default" = true ∧ hasOrderB s s.activeOrderId = true

/-- The operation is not a rename of the `"default"` order. -/
def nonDefaultRename : Op → Prop
  | .renameOrder oldId _ => ¬ oldId = "default"
  | _ => True

/-- JS object keys are pairwise distinct. -/
def KeysNodup (s : State) : Prop :=
  (s.orders.map Prod.fst).Nodup

instance (s : State) : Decidable (Invariant s) := by
  unfold Invariant
  infer_instance

instance (op : Op) : Decidable (nonDefaultRename op) := by
  cases op <;> simp only [nonDefaultRename] <;> infer_instance

instance (s : State) : Decidable (KeysNodup s) := by
  unfold KeysNodup
  infer_instance

/-! ### Association-list lemmas -/

theorem lookupKey_setKey_self (l : List (String × α)) (k : String) (v : α) :
    lookupKey (setKey l k v) k = some v := by
  induction l with
  | nil => simp [setKey, lookupKey]
  | cons e rest ih =>
      by_cases h : e.1 = k
      · simp [setKey, lookupKey, h]
      · simp [setKey, lookupKey, h, ih]

theorem lookupKey_setKey_ne (l : List (String × α)) (k : String) (v : α)
    (k2 : String) (h : ¬ k2 = k) :
    lookupKey (setKey l k v) k2 = lookupKey l k2 := by
  induction l with
  | nil =>
      simp [setKey, lookupKey, Ne.symm h]
  | cons e rest ih =>
      by_cases he : e.1 = k
      · subst he
        simp [setKey, lookupKey, Ne.symm h]
      · simp only [setKey, if_neg he, lookupKey]
        by_cases he2 : e.1 = k2 <;> simp [he2, ih]

theorem lookupKey_delKey_ne (l : List (String × α)) (k : String)
    (k2 : String) (h : ¬ k2 = k) :
    lookupKey (delKey l k) k2 = lookupKey l k2 := by
  induction l with
  | nil => simp [delKey]
  | cons e rest ih =>
      by_cases he : e.1 = k
      · subst he
        simp [delKey, lookupKey, Ne.symm h]
      · simp only [delKey, if_neg he, lookupKey]
        by_cases he2 : e.1 = k2 <;> simp [he2, ih]

theorem notMem_delKey_map_fst (l : List (String × α)) (k : String)
    (h : (l.map Prod.fst).Nodup) : ¬ k ∈ (delKey l k).map Prod.fst := by
  induction l with
  | nil => simp [delKey]
  | cons e rest ih =>
      simp only [List.map_cons, List.nodup_cons] at h
      by_cases he : e.1 = k
      · subst he
        simpa [delKey] using h.1
      · intro hmem
        simp only [delKey, if_neg he, List.map_cons, List.mem_cons] at hmem
        rcases hmem with hk | hk
        · exact he hk.symm
        · exact ih h.2 hk

/-! ### Invariant preservation machinery -/

theorem hasOrderB_notify (s : State) (m lvl k : String) :
    hasOrderB (notify s m lvl) k = hasOrderB s k := rfl

theorem invariant_notify (s : State) (m lvl : String) (h : Invariant s) :
    Invariant (notify s m lvl) := h

theorem invariant_setKeyOrders (s : State) (k : String) (v : List Item)
    (h : Invariant s) : Invariant { s with orders := setKey s.orders k v } := by
  constructor
  · by_cases hd : "default" = k
    · subst hd
      simp [hasOrderB, lookupKey_setKey_self]
    · simpa [hasOrderB, lookupKey_setKey_ne _ _ _ _ hd] using h.1
  · by_cases ha : s.activeOrderId = k
    · simp [hasOrderB, ha, lookupKey_setKey_self]
    · simpa [hasOrderB, lookupKey_setKey_ne _ _ _ _ ha] using h.2

theorem invariant_setCart (s : State) (items : List Item) (h : Invariant s) :
    Invariant (setCart s items) :=
  invariant_setKeyOrders s s.activeOrderId items h

theorem invariant_switchToOrder (s : State) (k : String) (h : Invariant s) :
    Invariant (switchToOrder s k) := by
  unfold switchToOrder
  by_cases hk : (lookupKey s.orders k).isSome
  · simp only [if_pos hk]
    exact ⟨h.1, hk⟩
  · simp only [if_neg hk]
    exact h

theorem invariant_createOrder (s : State) (i : String) (h : Invariant s) :
    Invariant (createOrder s i).2 := by
  unfold createOrder
  by_cases hi : (lookupKey s.orders i).isSome
  · simp only [if_pos hi]
    exact h
  · simp only [if_neg hi]
    exact invariant_notify _ _ _
      (invariant_switchToOrder _ _ (invariant_setKeyOrders s i [] h))

theorem invariant_deleteOrder (s : State) (i : String) (h : Invariant s) :
    Invariant (deleteOrder s i).2 := by
  unfold deleteOrder
  by_cases hdef : i = "default"
  · simp only [if_pos hdef]
    exact invariant_notify _ _ _ h
  · simp only [if_neg hdef]
    by_cases hi : (lookupKey s.orders i).isSome
    · simp only [if_pos hi]
      have hd1 : (lookupKey (delKey s.orders i) "default").isSome = true := by
        rw [lookupKey_delKey_ne _ _ _ (Ne.symm hdef)]
        exact h.1
      by_cases ha : s.activeOrderId = i
      · simp only [if_pos ha]
        apply invariant_notify
        unfold switchToOrder
        simp only [if_pos hd1]
        exact ⟨hd1, hd1⟩
      · simp only [if_neg ha]
        apply invariant_notify
        refine ⟨hd1, ?_⟩
        show (lookupKey (delKey s.orders i) s.activeOrderId).isSome = true
        rw [lookupKey_delKey_ne _ _ _ ha]
        exact h.2
    · simp only [if_neg hi]
      exact h

theorem invariant_renameOrder (s : State) (a b : String)
    (h : Invariant s) (ha : ¬ a = "default") : Invariant (renameOrder s a b).2 := by
  unfold renameOrder
  cases hla : lookupKey s.orders a with
  | none => exact h
  | some items =>
      by_cases hlb : (lookupKey s.orders b).isSome
      · simp only [if_pos hlb]
        exact h
      · simp only [if_neg hlb]
        have hbd : ¬ ("default" : String) = b := by
          intro hh
          exact hlb (by rw [← hh]; exact h.1)
        have had : ¬ ("default" : String) = a := fun hh => ha hh.symm
        have hab : ¬ b = a := by
          intro hh
          exact hlb (by rw [hh, hla]; rfl)
        have hd1 : (lookupKey (delKey (setKey s.orders b items) a) "default").isSome = true := by
          rw [lookupKey_delKey_ne _ _ _ had, lookupKey_setKey_ne _ _ _ _ hbd]
          exact h.1
        by_cases hact : s.activeOrderId = a
        · simp only [if_pos hact]
          apply invariant_notify
          refine ⟨hd1, ?_⟩
          show (lookupKey (delKey (setKey s.orders b items) a) b).isSome = true
          rw [lookupKey_delKey_ne _ _ _ hab, lookupKey_setKey_self]
          rfl
        · simp only [if_neg hact]
          apply invariant_notify
          refine ⟨hd1, ?_⟩
          have hanb : ¬ s.activeOrderId = b := by
            intro hh
            exact hlb (by rw [← hh]; exact h.2)
          show (lookupKey (delKey (setKey s.orders b items) a) s.activeOrderId).isSome = true
          rw [lookupKey_delKey_ne _ _ _ hact, lookupKey_setKey_ne _ _ _ _ hanb]
          exact h.2

theorem invariant_addItem (s : State) (inp : ItemInput) (g : String)
    (h : Invariant s) : Invariant (addItem s inp g).2 := by
  unfold addItem
  by_cases hg : inp.name = "" ∨ inp.price = 0
  · simp only [if_pos hg]
    exact h
  · simp only [if_neg hg]
    cases hla : lookupKey s.orders s.activeOrderId with
    | none => exact invariant_notify _ _ _ h
    | some items => exact invariant_notify _ _ _ (invariant_setCart _ _ h)

theorem invariant_removeItem (s : State) (i : Int) (h : Invariant s) :
    Invariant (removeItem s i) := by
  unfold removeItem
  by_cases hb : 0 ≤ i ∧ i < ((cartOf s).length : Int)
  · simp only [if_pos hb]
    cases hg : (cartOf s).get? i.toNat with
    | none => exact h
    | some it => exact invariant_notify _ _ _ (invariant_setCart _ _ h)
  · simp only [if_neg hb]
    exact h

theorem invariant_updateQuantity (s : State) (i : Int) (q : Option Int)
    (h : Invariant s) : Invariant (updateQuantity s i q) := by
  unfold updateQuantity
  by_cases hb : 0 ≤ i ∧ i < ((cartOf s).length : Int)
  · simp only [if_pos hb]
    cases q with
    | none => exact invariant_setCart _ _ h
    | some n =>
        by_cases hn : 0 < n
        · simp only [if_pos hn]
          exact invariant_setCart _ _ h
        · simp only [if_neg hn]
          exact invariant_setCart _ _ h
  · simp only [if_neg hb]
    exact h

theorem invariant_clearCart (s : State) (h : Invariant s) :
    Invariant (clearCart s) :=
  invariant_notify _ _ _ (invariant_setCart _ _ h)

theorem invariant_loadTemplate (s : State) (tid : String) (tgt : Option String)
    (h : Invariant s) : Invariant (loadTemplate s tid tgt).2 := by
  unfold loadTemplate
  cases hf : s.orderTemplates.find? (fun t => decide (t.id = tid)) with
  | none => exact invariant_notify _ _ _ h
  | some t => exact invariant_notify _ _ _ (invariant_setKeyOrders _ _ _ h)

/-- Claim C1 (counterexample): the claim says no operation, in particular
`renameOrder("default", newId)`, can remove or rename the `"default"` order.
But `renameOrder` guards only on the old key existing and the new key being
free; starting from the freshly initialized store, `renameOrder("default",
"lunch")` succeeds and afterwards the `"default"` key is gone, so the claimed
invariant is violated in a reachable state. -/
theorem renameOrder_default_removes_default :
    (renameOrder initState "default" "lunch").1 = true ∧
    lookupKey (renameOrder initState "default" "lunch").2.orders "default" = none ∧
    ¬ Invariant (renameOrder initState "default" "lunch").2 := by
  refine ⟨rfl, rfl, ?_⟩
  intro hinv
  exact absurd hinv.1 (by decide)

/-- Claim C1 (amended): the order-store invariant — `"default"` present and
`activeOrderId` pointing at an existing order — is preserved by every listed
operation except a rename whose old id is `"default"`; that one operation can
(and does) remove the `"default"` order. -/
theorem invariant_preserved_without_default_rename (s : State) (op : Op)
    (h : Invariant s) (hop : nonDefaultRename op) : Invariant (applyOp s op) := by
  cases op with
  | createOrder i => exact invariant_createOrder s i h
  | switchToOrder i => exact invariant_switchToOrder s i h
  | deleteOrder i => exact invariant_deleteOrder s i h
  | renameOrder a b => exact invariant_renameOrder s a b h hop
  | addItem inp g => exact invariant_addItem s inp g h
  | removeItem i => exact invariant_removeItem s i h
  | updateQuantity i q => exact invariant_updateQuantity s i q h
  | clearCart => exact invariant_clearCart s h
  | loadTemplate t tgt => exact invariant_loadTemplate s t tgt h

/-- Witness for the amended claim C1 at a concrete state and operation. -/
theorem invariant_preserved_without_default_rename_witness :
    Invariant initState ∧
    nonDefaultRename (Op.renameOrder "lunch" "dinner") ∧
    Invariant (applyOp initState (Op.renameOrder "lunch" "dinner")) := by
  refine ⟨by decide, by decide, ?_⟩
  exact invariant_preserved_without_default_rename initState
    (Op.renameOrder "lunch" "dinner") (by decide) (by decide)

/-! ### Derived totals (claims C2, C7, C8, C9, C10) -/

theorem foldl_add_map_sum {α β : Type _} [AddMonoid β] (f : α → β) :
    ∀ (l : List α) (a : β), l.foldl (fun t i => t + f i) a = a + (l.map f).sum
  | [], a => by simp
  | x :: xs, a => by
      rw [List.foldl_cons, foldl_add_map_sum f xs (a + f x), List.map_cons,
        List.sum_cons, add_assoc]

theorem totalOf_eq_sum (items : List Item) :
    totalOf items = (items.map (fun i => i.price * (i.quantity : Rat))).sum := by
  unfold totalOf
  rw [foldl_add_map_sum, zero_add]

theorem countOf_eq_sum (items : List Item) :
    countOf items = (items.map Item.quantity).sum := by
  unfold countOf
  rw [foldl_add_map_sum, zero_add]

/-- Claim C2: after every mutating operation, `getTotal()` is the sum of
`price * quantity` over the active order's items and `getItemCount()` is the
sum of their quantities. -/
theorem getTotal_getItemCount_correct (s : State) (op : Op) :
    getTotal (applyOp s op) =
      ((cartOf (applyOp s op)).map (fun i => i.price * (i.quantity : Rat))).sum ∧
    getItemCount (applyOp s op) =
      ((cartOf (applyOp s op)).map Item.quantity).sum :=
  ⟨totalOf_eq_sum _, countOf_eq_sum _⟩

/-- Claim C7: `deleteOrder("default")` always returns failure, emits an error
notification, and changes neither the orders mapping (in particular not the
default order's items) nor the active pointer. -/
theorem deleteOrder_default_fails (s : State) :
    (deleteOrder s "default").1 = false ∧
    (deleteOrder s "default").2.orders = s.orders ∧
    (deleteOrder s "default").2.activeOrderId = s.activeOrderId ∧
    (deleteOrder s "default").2.notifications =
      s.notifications ++ [("Cannot delete default order", "error")] := by
  unfold deleteOrder
  simp [notify]

/-- Claim C8: deleting the non-default order that is currently active makes
`"default"` active and removes the deleted id from `getAllOrderIds()` (the
state is one with distinct keys — a JS object cannot repeat a key — in which
the reserved `"default"` order is present, as the spec's invariant
guarantees). -/
theorem deleteOrder_active_switches_to_default (s : State) (orderId : String)
    (hnd : KeysNodup s)
    (hdef : hasOrderB s "default" = true)
    (hex : hasOrderB s orderId = true)
    (hne : ¬ orderId = "default")
    (hact : s.activeOrderId = orderId) :
    (deleteOrder s orderId).2.activeOrderId = "default" ∧
    ¬ orderId ∈ getAllOrderIds (deleteOrder s orderId).2 := by
  have hex' : (lookupKey s.orders orderId).isSome = true := hex
  have hdef' : (lookupKey (delKey s.orders orderId) "default").isSome = true := by
    rw [lookupKey_delKey_ne _ _ _ (fun hh => hne hh.symm)]
    exact hdef
  unfold deleteOrder
  simp only [if_neg hne, hex', if_true]
  have hact1 : ({ s with orders := delKey s.orders orderId } : State).activeOrderId
      = orderId := hact
  simp only [if_pos hact1]
  unfold switchToOrder
  simp only [hdef', if_true]
  constructor
  · rfl
  · show ¬ orderId ∈ (delKey s.orders orderId).map Prod.fst
    exact notMem_delKey_map_fst s.orders orderId hnd

/-- A concrete store with two orders, the non-default one active. -/
def twoOrders : State :=
  { activeOrderId := "lunch"
    orders := [("default", []), ("lunch", [⟨"i1", "Pizza", 250, 2⟩])]
    orderTemplates := []
    notifications := [] }

/-- Witness for claim C8 at the concrete store `twoOrders`. -/
theorem deleteOrder_active_switches_to_default_witness :
    KeysNodup twoOrders ∧
    hasOrderB twoOrders "default" = true ∧
    hasOrderB twoOrders "lunch" = true ∧
    ¬ ("lunch" : String) = "default" ∧
    twoOrders.activeOrderId = "lunch" ∧
    ((deleteOrder twoOrders "lunch").2.activeOrderId = "default" ∧
      ¬ "lunch" ∈ getAllOrderIds (deleteOrder twoOrders "lunch").2) := by
  refine ⟨by decide, by decide, by decide, by decide, by decide, ?_⟩
  exact deleteOrder_active_switches_to_default twoOrders "lunch"
    (by decide) (by decide) (by decide) (by decide) (by decide)

/-- Claim C9: renaming onto an id that already exists fails and leaves the
whole state — in particular the item arrays under both ids and the active
pointer — untouched. -/
theorem renameOrder_existing_target_fails (s : State) (a b : String)
    (hb : (lookupKey s.orders b).isSome = true) :
    renameOrder s a b = (false, s) := by
  unfold renameOrder
  cases hla : lookupKey s.orders a with
  | none => rfl
  | some items => simp [hb]

/-- Witness for claim C9: renaming `"lunch"` onto the existing `"default"`. -/
theorem renameOrder_existing_target_fails_witness :
    (lookupKey twoOrders.orders "default").isSome = true ∧
    renameOrder twoOrders "lunch" "default" = (false, twoOrders) :=
  ⟨by decide, renameOrder_existing_target_fails twoOrders "lunch" "default" (by decide)⟩

/-- Claim C10: `addItem` checks `!item.name || !item.price`, so a price of
exactly `0` (and likewise an empty-string name) is treated as missing: the
call returns `false` and the state — notifications included — is unchanged. -/
theorem addItem_zero_price_rejected (s : State) (inp : ItemInput) (g : String)
    (h : inp.price = 0 ∨ inp.name = "") : addItem s inp g = (false, s) := by
  unfold addItem
  rcases h with h | h <;> simp [h]

/-- Witness for claim C10: a free item with price `0` is rejected. -/
theorem addItem_zero_price_rejected_witness :
    ((⟨"Water", 0, some 1, none⟩ : ItemInput).price = 0 ∨
      (⟨"Water", 0, some 1, none⟩ : ItemInput).name = "") ∧
    addItem initState ⟨"Water", 0, some 1, none⟩ "g1" = (false, initState) :=
  ⟨Or.inl rfl,
    addItem_zero_price_rejected initState ⟨"Water", 0, some 1, none⟩ "g1" (Or.inl rfl)⟩

/-! ### Merge-by-identity lemmas for `addItem` (claims C3, C6) -/

theorem sameKey_iff (nm : String) (pr : Rat) (i : Item) :
    sameKey nm pr i = true ↔ (i.name = nm ∧ i.price = pr) := by
  simp [sameKey]

theorem sameKey_quantity_update (nm : String) (pr : Rat) (i : Item) (q : Int) :
    sameKey nm pr { i with quantity := q } = sameKey nm pr i := by
  simp [sameKey]

theorem any_eq_false_iff_filter_eq_nil (p : Item → Bool) (l : List Item) :
    l.any p = false ↔ l.filter p = [] := by
  constructor
  · intro h
    rw [List.filter_eq_nil_iff]
    intro a ha hpa
    have hT : l.any p = true := List.any_eq_true.mpr ⟨a, ha, hpa⟩
    rw [h] at hT
    exact Bool.false_ne_true hT
  · intro h
    rw [List.filter_eq_nil_iff] at h
    cases hA : l.any p with
    | false => rfl
    | true =>
        obtain ⟨a, ha, hpa⟩ := List.any_eq_true.mp hA
        exact absurd hpa (h a ha)

theorem filter_append_fresh (p : Item → Bool) (l : List Item) (x : Item)
    (hl : l.filter p = []) (hx : p x = true) : (l ++ [x]).filter p = [x] := by
  rw [List.filter_append, hl, List.filter_cons, if_pos hx]
  rfl

theorem filter_addQtyFirst (nm : String) (pr : Rat) (q : Int) :
    ∀ (l : List Item) (it : Item), l.filter (sameKey nm pr) = [it] →
      (addQtyFirst nm pr q l).filter (sameKey nm pr) =
        [{ it with quantity := it.quantity + q }]
  | [], it, h => by simp at h
  | i :: rest, it, h => by
      by_cases hi : sameKey nm pr i
      · rw [List.filter_cons, if_pos hi] at h
        have h1 : i = it := (List.cons_eq_cons.mp h).1
        have h2 : rest.filter (sameKey nm pr) = [] := (List.cons_eq_cons.mp h).2
        subst h1
        unfold addQtyFirst
        rw [if_pos hi, List.filter_cons, if_pos (by rw [sameKey_quantity_update]; exact hi),
          h2]
      · unfold addQtyFirst
        rw [if_neg hi, List.filter_cons, if_neg hi]
        rw [List.filter_cons, if_neg hi] at h
        exact filter_addQtyFirst nm pr q rest it h

/-- `addItem` on a state whose active key is present: the call succeeds and
the active order becomes the merged or extended item list; the active pointer
and the template list are untouched. -/
theorem addItem_active_update (s : State) (inp : ItemInput) (g : String)
    (items : List Item)
    (hn : ¬ inp.name = "") (hp : ¬ inp.price = 0)
    (hl : lookupKey s.orders s.activeOrderId = some items) :
    (addItem s inp g).1 = true ∧
    (addItem s inp g).2.activeOrderId = s.activeOrderId ∧
    lookupKey (addItem s inp g).2.orders s.activeOrderId =
      some (if items.any (sameKey (sanitizeInput inp.name) inp.price) then
              addQtyFirst (sanitizeInput inp.name) inp.price (qtyCoerce inp.quantity) items
            else items ++ [⟨resolveId inp g, sanitizeInput inp.name, inp.price,
              qtyCoerce inp.quantity⟩]) ∧
    (addItem s inp g).2.orderTemplates = s.orderTemplates := by
  have hg : ¬ (inp.name = "" ∨ inp.price = 0) := by
    intro hh
    rcases hh with hh | hh
    · exact hn hh
    · exact hp hh
  unfold addItem
  simp only [if_neg hg]
  rw [hl]
  refine ⟨rfl, rfl, ?_, rfl⟩
  exact lookupKey_setKey_self _ _ _

/-- Folding a list of `addItem` calls (each with its generated-id oracle). -/
def addItems (s : State) (inps : List (ItemInput × String)) : State :=
  inps.foldl (fun acc p => (addItem acc p.1 p.2).2) s

theorem addItems_filter_aux (nm : String) (pr : Rat) :
    ∀ (inps : List (ItemInput × String)) (s : State) (items : List Item) (it : Item),
      (∀ p ∈ inps, ¬ p.1.name = "" ∧ ¬ p.1.price = 0 ∧
        sanitizeInput p.1.name = nm ∧ p.1.price = pr) →
      lookupKey s.orders s.activeOrderId = some items →
      items.filter (sameKey nm pr) = [it] →
      ∃ items2,
        lookupKey (addItems s inps).orders (addItems s inps).activeOrderId = some items2 ∧
        items2.filter (sameKey nm pr) =
          [{ it with quantity := it.quantity + (inps.map (fun p => qtyCoerce p.1.quantity)).sum }]
  | [], s, items, it, hall, hl, hf => ⟨items, hl, by simpa using hf⟩
  | p :: rest, s, items, it, hall, hl, hf => by
      obtain ⟨hn, hp, hsn, hpr⟩ := hall p (List.mem_cons_self p rest)
      have hstep := addItem_active_update s p.1 p.2 items hn hp hl
      have hmem : it ∈ items.filter (sameKey nm pr) := by
        rw [hf]
        exact List.mem_singleton.mpr rfl
      rw [List.mem_filter] at hmem
      have hany : items.any (sameKey nm pr) = true :=
        List.any_eq_true.mpr ⟨it, hmem.1, hmem.2⟩
      rw [hsn, hpr, if_pos hany] at hstep
      have hl2 : lookupKey (addItem s p.1 p.2).2.orders
          (addItem s p.1 p.2).2.activeOrderId =
          some (addQtyFirst nm pr (qtyCoerce p.1.quantity) items) := by
        rw [hstep.2.1]
        exact hstep.2.2.1
      have hf2 := filter_addQtyFirst nm pr (qtyCoerce p.1.quantity) items it hf
      obtain ⟨items2, h1, h2⟩ := addItems_filter_aux nm pr rest (addItem s p.1 p.2).2 _ _
        (fun q hq => hall q (List.mem_cons_of_mem _ hq)) hl2 hf2
      refine ⟨items2, h1, ?_⟩
      rw [h2, List.map_cons, List.sum_cons, add_assoc]

/-- Claim C3: a nonempty run of successful `addItem` calls that all carry the
same sanitized name and the same price, landing in an active order that has
no row with that identity yet, leaves exactly one row with that name and
price, whose quantity is the sum of the coerced quantities; no duplicate row
is ever created. -/
theorem addItem_merge_single_row (s : State) (nm : String) (pr : Rat)
    (inps : List (ItemInput × String))
    (hne : ¬ inps = [])
    (hall : ∀ p ∈ inps, ¬ p.1.name = "" ∧ ¬ p.1.price = 0 ∧
      sanitizeInput p.1.name = nm ∧ p.1.price = pr)
    (items : List Item)
    (hact : lookupKey s.orders s.activeOrderId = some items)
    (hfresh : items.filter (sameKey nm pr) = []) :
    ∃ it : Item, (cartOf (addItems s inps)).filter (sameKey nm pr) = [it] ∧
      it.name = nm ∧ it.price = pr ∧
      it.quantity = (inps.map (fun p => qtyCoerce p.1.quantity)).sum := by
  match inps, hne with
  | p :: rest, _ =>
    obtain ⟨hn, hp, hsn, hpr⟩ := hall p (List.mem_cons_self p rest)
    have hstep := addItem_active_update s p.1 p.2 items hn hp hact
    have hany : items.any (sameKey nm pr) = false :=
      (any_eq_false_iff_filter_eq_nil _ _).mpr hfresh
    rw [hsn, hpr, if_neg (by rw [hany]; exact Bool.false_ne_true)] at hstep
    have hl2 : lookupKey (addItem s p.1 p.2).2.orders
        (addItem s p.1 p.2).2.activeOrderId =
        some (items ++ [⟨resolveId p.1 p.2, nm, pr, qtyCoerce p.1.quantity⟩]) := by
      rw [hstep.2.1]
      exact hstep.2.2.1
    have hx : sameKey nm pr (⟨resolveId p.1 p.2, nm, pr, qtyCoerce p.1.quantity⟩ : Item)
        = true := by
      simp [sameKey]
    have hf2 := filter_append_fresh (sameKey nm pr) items _ hfresh hx
    obtain ⟨items2, h1, h2⟩ := addItems_filter_aux nm pr rest (addItem s p.1 p.2).2 _ _
      (fun q hq => hall q (List.mem_cons_of_mem _ hq)) hl2 hf2
    have h1' : lookupKey (addItems s (p :: rest)).orders
        (addItems s (p :: rest)).activeOrderId = some items2 := h1
    have hcart : cartOf (addItems s (p :: rest)) = items2 := by
      unfold cartOf
      rw [h1']
      rfl
    refine ⟨⟨resolveId p.1 p.2, nm, pr,
      qtyCoerce p.1.quantity + (rest.map (fun q => qtyCoerce q.1.quantity)).sum⟩,
      ?_, rfl, rfl, ?_⟩
    · rw [hcart]
      exact h2
    · rw [List.map_cons, List.sum_cons]

/-- The two adds of the C3 witness: the same pizza added twice. -/
def pizzaTwice : List (ItemInput × String) :=
  [(⟨"Pizza", 250, some 2, none⟩, "g1"), (⟨"Pizza", 250, some 3, none⟩, "g2")]

/-- Witness for claim C3: adding the same pizza twice to the fresh store
yields a single row of quantity 5. -/
theorem addItem_merge_single_row_witness :
    (¬ pizzaTwice = []) ∧
    (∀ p ∈ pizzaTwice, ¬ p.1.name = "" ∧ ¬ p.1.price = 0 ∧
      sanitizeInput p.1.name = "Pizza" ∧ p.1.price = 250) ∧
    lookupKey initState.orders initState.activeOrderId = some [] ∧
    ([] : List Item).filter (sameKey "Pizza" 250) = [] ∧
    (∃ it : Item,
      (cartOf (addItems initState pizzaTwice)).filter (sameKey "Pizza" 250) = [it] ∧
      it.name = "Pizza" ∧ it.price = 250 ∧
      it.quantity = (pizzaTwice.map (fun p => qtyCoerce p.1.quantity)).sum) := by
  refine ⟨by decide, by decide, by decide, by decide, ?_⟩
  exact addItem_merge_single_row initState "Pizza" 250 pizzaTwice
    (by decide) (by decide) [] (by decide) (by decide)

/-- Claim C6 (counterexample): `parseInt(quantity) || 1` falls back to `1`
only when the coercion yields a falsy value (`NaN` or `0`); a negative value
such as `-2` is truthy and stored unchanged, so the claim that every
non-positive quantity is stored as `1` is false. -/
theorem addItem_negative_quantity_stored :
    (cartOf (addItem initState ⟨"Pizza", 250, some (-2), none⟩ "i1").2).map Item.quantity
      = [-2] ∧ ¬ ((-2 : Int) = 1) := by decide

/-- Claim C6 (amended): `addItem` stores `parseInt(quantity) || 1`: the
quantity defaults to `1` exactly when the coercion produced no number
(`NaN`) or `0`; any other coerced integer — negative ones included — is
stored as-is. -/
theorem addItem_quantity_coercion (s : State) (inp : ItemInput) (g : String)
    (items : List Item)
    (hn : ¬ inp.name = "") (hp : ¬ inp.price = 0)
    (hact : lookupKey s.orders s.activeOrderId = some items)
    (hfresh : items.filter (sameKey (sanitizeInput inp.name) inp.price) = []) :
    ∃ it : Item,
      (cartOf (addItem s inp g).2).filter (sameKey (sanitizeInput inp.name) inp.price)
        = [it] ∧
      it.quantity = qtyCoerce inp.quantity ∧
      ((inp.quantity = none ∨ inp.quantity = some 0) → it.quantity = 1) ∧
      (∀ n : Int, inp.quantity = some n → ¬ n = 0 → it.quantity = n) := by
  have hstep := addItem_active_update s inp g items hn hp hact
  have hany : items.any (sameKey (sanitizeInput inp.name) inp.price) = false :=
    (any_eq_false_iff_filter_eq_nil _ _).mpr hfresh
  rw [if_neg (by rw [hany]; exact Bool.false_ne_true)] at hstep
  have hx : sameKey (sanitizeInput inp.name) inp.price
      (⟨resolveId inp g, sanitizeInput inp.name, inp.price, qtyCoerce inp.quantity⟩ : Item)
      = true := by
    simp [sameKey]
  have hcart : cartOf (addItem s inp g).2 = items ++
      [⟨resolveId inp g, sanitizeInput inp.name, inp.price, qtyCoerce inp.quantity⟩] := by
    unfold cartOf
    rw [hstep.2.1, hstep.2.2.1]
    rfl
  refine ⟨⟨resolveId inp g, sanitizeInput inp.name, inp.price, qtyCoerce inp.quantity⟩,
    ?_, rfl, ?_, ?_⟩
  · rw [hcart]
    exact filter_append_fresh _ _ _ hfresh hx
  · intro hq
    rcases hq with hq | hq <;> simp [qtyCoerce, hq]
  · intro n hqn hn0
    simp [qtyCoerce, hqn, hn0]

/-- The C6 witness input: quantity coerces to `0`, which is falsy. -/
def zeroQtyInput : ItemInput := ⟨"Pizza", 250, some 0, none⟩

/-- Witness for the amended claim C6: a quantity of `0` is stored as `1`. -/
theorem addItem_quantity_coercion_witness :
    (¬ zeroQtyInput.name = "") ∧ (¬ zeroQtyInput.price = 0) ∧
    lookupKey initState.orders initState.activeOrderId = some [] ∧
    ([] : List Item).filter (sameKey (sanitizeInput zeroQtyInput.name) zeroQtyInput.price)
      = [] ∧
    (∃ it : Item,
      (cartOf (addItem initState zeroQtyInput "g1").2).filter
        (sameKey (sanitizeInput zeroQtyInput.name) zeroQtyInput.price) = [it] ∧
      it.quantity = qtyCoerce zeroQtyInput.quantity ∧
      ((zeroQtyInput.quantity = none ∨ zeroQtyInput.quantity = some 0) → it.quantity = 1) ∧
      (∀ n : Int, zeroQtyInput.quantity = some n → ¬ n = 0 → it.quantity = n)) := by
  refine ⟨by decide, by decide, by decide, by decide, ?_⟩
  exact addItem_quantity_coercion initState zeroQtyInput "g1" []
    (by decide) (by decide) (by decide) (by decide)

/-! ### Template round-trip (claim C4) -/

theorem any_eq_false_of_all {α : Type _} (p : α → Bool) (l : List α)
    (h : ∀ x ∈ l, p x = false) : l.any p = false := by
  cases hA : l.any p with
  | false => rfl
  | true =>
      obtain ⟨a, ha, hpa⟩ := List.any_eq_true.mp hA
      rw [h a ha] at hpa
      exact absurd hpa Bool.false_ne_true

theorem find?_append_all_false {α : Type _} (p : α → Bool) (l : List α) (x : α)
    (h : ∀ t ∈ l, p t = false) (hx : p x = true) : (l ++ [x]).find? p = some x := by
  induction l with
  | nil => simp [List.find?, hx]
  | cons e rest ih =>
      have he : p e = false := h e (List.mem_cons_self e rest)
      rw [List.cons_append, List.find?_cons, he]
      exact ih (fun t ht => h t (List.mem_cons_of_mem _ ht))

/-- Projections of a successful `saveAsTemplate`: the call returns the new
template id, appends the snapshot template, and touches neither the orders
mapping nor the active pointer. -/
theorem saveAsTemplate_components (s : State) (nm gid now : String)
    (h1 : ¬ jsTrim nm = "")
    (hany : s.orderTemplates.any
      (fun t => decide (t.name = sanitizeInput (jsTrim nm))) = false) :
    (saveAsTemplate s nm gid now).1 = some gid ∧
    (saveAsTemplate s nm gid now).2.activeOrderId = s.activeOrderId ∧
    (saveAsTemplate s nm gid now).2.orders = s.orders ∧
    (saveAsTemplate s nm gid now).2.orderTemplates = s.orderTemplates ++
      [⟨gid, sanitizeInput (jsTrim nm), cartOf s, now, getTotal s, getItemCount s, none⟩] := by
  have hcond : ¬ ((s.orderTemplates.any
      (fun t => decide (t.name = sanitizeInput (jsTrim nm)))) = true) := by
    rw [hany]
    exact Bool.false_ne_true
  simp only [saveAsTemplate, if_neg h1, if_neg hcond]
  exact ⟨trivial, rfl, rfl, rfl⟩

theorem clearCart_components (s : State) :
    (clearCart s).activeOrderId = s.activeOrderId ∧
    (clearCart s).orderTemplates = s.orderTemplates ∧
    (clearCart s).orders = setKey s.orders s.activeOrderId [] :=
  ⟨rfl, rfl, rfl⟩

/-- Projections of a successful `loadTemplate` with default target: the
found template's items overwrite the active order. -/
theorem loadTemplate_found_components (s : State) (tid : String) (t : Template)
    (hf : s.orderTemplates.find? (fun u => decide (u.id = tid)) = some t) :
    (loadTemplate s tid none).1 = true ∧
    (loadTemplate s tid none).2.activeOrderId = s.activeOrderId ∧
    (loadTemplate s tid none).2.orderTemplates = s.orderTemplates ∧
    (loadTemplate s tid none).2.orders = setKey s.orders s.activeOrderId t.items := by
  unfold loadTemplate
  rw [hf]
  exact ⟨rfl, rfl, rfl, rfl⟩

/-- Claim C4: saving the active order under a fresh non-blank template name,
clearing the cart, then loading the returned template id restores the active
order's items exactly, and the template's stored `total` and `itemCount`
equal `getTotal()` / `getItemCount()` recomputed on the restored state.  The
`gid` oracle is the freshly generated template id, so no earlier template
carries it. -/
theorem template_roundtrip_restores_items (s : State) (nm gid now : String)
    (h1 : ¬ jsTrim nm = "")
    (h2 : ∀ t ∈ s.orderTemplates, ¬ t.name = sanitizeInput (jsTrim nm))
    (h3 : ∀ t ∈ s.orderTemplates, ¬ t.id = gid) :
    (saveAsTemplate s nm gid now).1 = some gid ∧
    (loadTemplate (clearCart (saveAsTemplate s nm gid now).2) gid none).1 = true ∧
    cartOf (loadTemplate (clearCart (saveAsTemplate s nm gid now).2) gid none).2
      = cartOf s ∧
    (∃ t : Template,
      (loadTemplate (clearCart (saveAsTemplate s nm gid now).2) gid
          none).2.orderTemplates.find? (fun u => decide (u.id = gid)) = some t ∧
      t.items = cartOf s ∧
      t.total = getTotal (loadTemplate (clearCart (saveAsTemplate s nm gid now).2)
        gid none).2 ∧
      t.itemCount = getItemCount (loadTemplate (clearCart
        (saveAsTemplate s nm gid now).2) gid none).2) := by
  have hanyT : s.orderTemplates.any
      (fun t => decide (t.name = sanitizeInput (jsTrim nm))) = false :=
    any_eq_false_of_all _ _ (fun t ht => by simp [h2 t ht])
  obtain ⟨hA, hB, hC, hD⟩ := saveAsTemplate_components s nm gid now h1 hanyT
  have hfind : (s.orderTemplates ++
      [(⟨gid, sanitizeInput (jsTrim nm), cartOf s, now, getTotal s, getItemCount s,
        none⟩ : Template)]).find? (fun u => decide (u.id = gid)) =
      some ⟨gid, sanitizeInput (jsTrim nm), cartOf s, now, getTotal s, getItemCount s,
        none⟩ :=
    find?_append_all_false _ _ _ (fun t ht => by simp [h3 t ht]) (by simp)
  have hs2T : (clearCart (saveAsTemplate s nm gid now).2).orderTemplates =
      s.orderTemplates ++ [⟨gid, sanitizeInput (jsTrim nm), cartOf s, now, getTotal s,
        getItemCount s, none⟩] := by
    rw [(clearCart_components _).2.1, hD]
  have hfind2 : (clearCart (saveAsTemplate s nm gid now).2).orderTemplates.find?
      (fun u => decide (u.id = gid)) =
      some ⟨gid, sanitizeInput (jsTrim nm), cartOf s, now, getTotal s, getItemCount s,
        none⟩ := by
    rw [hs2T]
    exact hfind
  obtain ⟨hL1, hL2, hL3, hL4⟩ := loadTemplate_found_components _ gid _ hfind2
  have hcart3 : cartOf (loadTemplate (clearCart (saveAsTemplate s nm gid now).2)
      gid none).2 = cartOf s := by
    unfold cartOf
    rw [hL2, hL4, lookupKey_setKey_self]
    rfl
  refine ⟨hA, hL1, hcart3, ⟨⟨gid, sanitizeInput (jsTrim nm), cartOf s, now, getTotal s,
    getItemCount s, none⟩, ?_, rfl, ?_, ?_⟩⟩
  · rw [hL3]
    exact hfind2
  · show getTotal s = getTotal _
    unfold getTotal
    rw [hcart3]
  · show getItemCount s = getItemCount _
    unfold getItemCount
    rw [hcart3]

/-- Witness for claim C4 at the concrete store `twoOrders`. -/
theorem template_roundtrip_restores_items_witness :
    (¬ jsTrim "T" = "") ∧
    (∀ t ∈ twoOrders.orderTemplates, ¬ t.name = sanitizeInput (jsTrim "T")) ∧
    (∀ t ∈ twoOrders.orderTemplates, ¬ t.id = "template-9") ∧
    ((saveAsTemplate twoOrders "T" "template-9" "t0").1 = some "template-9" ∧
      (loadTemplate (clearCart (saveAsTemplate twoOrders "T" "template-9" "t0").2)
        "template-9" none).1 = true ∧
      cartOf (loadTemplate (clearCart (saveAsTemplate twoOrders "T" "template-9" "t0").2)
        "template-9" none).2 = cartOf twoOrders ∧
      (∃ t : Template,
        (loadTemplate (clearCart (saveAsTemplate twoOrders "T" "template-9" "t0").2)
          "template-9" none).2.orderTemplates.find?
            (fun u => decide (u.id = "template-9")) = some t ∧
        t.items = cartOf twoOrders ∧
        t.total = getTotal (loadTemplate (clearCart (saveAsTemplate twoOrders "T"
          "template-9" "t0").2) "template-9" none).2 ∧
        t.itemCount = getItemCount (loadTemplate (clearCart (saveAsTemplate twoOrders "T"
          "template-9" "t0").2) "template-9" none).2)) := by
  refine ⟨by decide, by decide, by decide, ?_⟩
  exact template_roundtrip_restores_items twoOrders "T" "template-9" "t0"
    (by decide) (by decide) (by decide)

/-!
### Heap model of item-object sharing (claim C5)

`saveAsTemplate` snapshots the active order with `items: [...this.cart]`: the
array is copied but the item objects inside it are shared.  The only field
the source ever writes on an existing item object is `quantity`
(`existingItem.quantity += q`, `this.cart[index].quantity = n`), so the heap
model gives every item object a cell index `qref` into a quantity heap;
copying an array copies the list of references, exactly like the spread
operator, while a quantity write hits the shared cell.  Notifications and
persistence are irrelevant to the sharing question and are left out here.
-/

/-- An item object: immutable fields plus a reference to its mutable
quantity cell. -/
structure HItem where
  id : String
  name : String
  price : Rat
  qref : Nat
  deriving Repr, DecidableEq

/-- A template in the heap model; `items` holds shared item references. -/
structure HTemplate where
  id : String
  name : String
  items : List HItem
  createdAt : String
  total : Rat
  itemCount : Int
  deriving Repr, DecidableEq

/-- The heap-model state: the order store plus the quantity heap. -/
structure HState where
  activeOrderId : String
  orders : List (String × List HItem)
  orderTemplates : List HTemplate
  qheap : List Int
  deriving Repr, DecidableEq

/-- Read an item's quantity from the heap. -/
def qtyOf (hs : HState) (i : HItem) : Int := hs.qheap.getD i.qref 0

/-- Dereference an item object into the value an observer reads. -/
def viewItem (hs : HState) (i : HItem) : Item := ⟨i.id, i.name, i.price, qtyOf hs i⟩

/-- The `cart` getter in the heap model. -/
def hCartOf (hs : HState) : List HItem :=
  (lookupKey hs.orders hs.activeOrderId).getD []

/-- `getTotal` in the heap model. -/
def hGetTotal (hs : HState) : Rat :=
  (hCartOf hs).foldl (fun t i => t + i.price * (qtyOf hs i : Rat)) 0

/-- `getItemCount` in the heap model. -/
def hGetItemCount (hs : HState) : Int :=
  (hCartOf hs).foldl (fun c i => c + qtyOf hs i) 0

/-- `saveAsTemplate` in the heap model: `items: [...this.cart]` copies the
array but shares the item objects (their `qref`s). -/
def saveAsTemplateH (hs : HState) (templateName genId now : String) :
    Option String × HState :=
  if jsTrim templateName = "" then (none, hs)
  else
    let nm := sanitizeInput (jsTrim templateName)
    if hs.orderTemplates.any (fun t => decide (t.name = nm)) then (none, hs)
    else
      let tmpl : HTemplate :=
        ⟨genId, nm, hCartOf hs, now, hGetTotal hs, hGetItemCount hs⟩
      (some genId, { hs with orderTemplates := hs.orderTemplates ++ [tmpl] })

/-- `updateQuantity` in the heap model: a positive coerced quantity writes
`this.cart[index].quantity = n` into the shared cell; zero, negative or
`NaN` splices the row out of the order's array only. -/
def updateQuantityH (hs : HState) (index : Int) (quantity : Option Int) : HState :=
  if 0 ≤ index ∧ index < ((hCartOf hs).length : Int) then
    match quantity with
    | some n =>
        if 0 < n then
          match (hCartOf hs).get? index.toNat with
          | some it => { hs with qheap := hs.qheap.set it.qref n }
          | none => hs
        else
          { hs with orders := setKey hs.orders hs.activeOrderId ((hCartOf hs).eraseIdx index.toNat) }
    | none =>
        { hs with orders := setKey hs.orders hs.activeOrderId ((hCartOf hs).eraseIdx index.toNat) }
  else hs

/-- A store holding one pizza of quantity 2 in the default order; the single
quantity cell is heap slot 0. -/
def hInit : HState :=
  { activeOrderId := "default"
    orders := [("default", [⟨"p1", "Pizza", 250, 0⟩])]
    orderTemplates := []
    qheap := [2] }

/-- The store after saving the template `"T"`. -/
def hSaved : HState := (saveAsTemplateH hInit "T" "template-1" "t0").2

/-- The store after then changing the order's first row quantity to 5. -/
def hMutated : HState := updateQuantityH hSaved 0 (some 5)

/-- Claim C5 fails on the code: the template snapshot shares its item objects
with the order, so `updateQuantity(0, 5)` on the order after
`saveAsTemplate("T")` changes the template's stored item from quantity 2 to
quantity 5, while the template's cached `itemCount` keeps its save-time value
2 — the snapshot is not independent and becomes internally inconsistent. -/
theorem template_snapshot_aliasing_bug :
    (hSaved.orderTemplates.map (fun t => t.items.map (viewItem hSaved)))
      = [[⟨"p1", "Pizza", 250, 2⟩]] ∧
    (hMutated.orderTemplates.map (fun t => t.items.map (viewItem hMutated)))
      = [[⟨"p1", "Pizza", 250, 5⟩]] ∧
    hMutated.orderTemplates.map HTemplate.itemCount = [2] := by decide
